import Mathlib

/-!
Shallow embedding of the custom-resource lifecycle handlers of the
aws-iot-app-kit bottling-line demo repository.

Each Lambda handler (role-alias, thing-cert-policy, thing-group,
greengrass-v2-deployment) is modelled as a pure function from the incoming
CloudFormation event and an *oracle* to a result.  The oracle assigns an
outcome (success with response data, or a thrown exception) to every external
SDK call, indexed by the position of the call in the invocation's call
sequence, so universal quantification over oracles covers every combination
of individual external-call outcomes.  The functions additionally return the
ordered trace of external calls issued and whether the code set
`process.exitCode = 1`.
-/

/-- Response of `CreateRoleAliasCommand` (fields read by the code). -/
structure RoleAliasResp where
  roleAliasArn : String
  roleAlias : String
  deriving DecidableEq

/-- Response of `CreateKeysAndCertificateCommand` (fields read by the code). -/
structure KeysResp where
  certificateArn : String
  certificatePem : String
  certificateId : String
  keyPairPrivateKey : String
  deriving DecidableEq

/-- One entry of `ListPolicyVersionsCommand`'s response. -/
structure PolicyVersion where
  versionId : String
  isDefaultVersion : Bool
  deriving DecidableEq

/-- Response of `CreateThingGroupCommand` (fields read by the code). -/
structure GroupResp where
  thingGroupArn : String
  thingGroupId : String
  deriving DecidableEq

/-- Response of `CreateDeploymentCommand` (fields read by the code). -/
structure DeployResp where
  deploymentId : String
  iotJobId : String
  iotJobArn : String
  deriving DecidableEq

/-- Outcome of each possible external SDK call: `.error` models a thrown
exception, `.ok` carries the response fields the handlers read. -/
structure Resp where
  createRoleAlias : Except Unit RoleAliasResp
  deleteRoleAlias : Except Unit Unit
  createThing : Except Unit String
  createKeysAndCertificate : Except Unit KeysResp
  createPolicy : Except Unit String
  attachPolicy : Except Unit Unit
  attachThingPrincipal : Except Unit Unit
  putParameter : Except Unit Unit
  describeEndpoint : Except Unit String
  deleteParameters : Except Unit Unit
  listPolicyVersions : Except Unit (List PolicyVersion)
  deletePolicyVersion : Except Unit Unit
  listTargetsForPolicy : Except Unit (List String)
  detachPolicy : Except Unit Unit
  deletePolicy : Except Unit Unit
  listPrincipalThings : Except Unit (List String)
  detachThingPrincipal : Except Unit Unit
  listAttachedPolicies : Except Unit (List String)
  updateCertificate : Except Unit Unit
  deleteCertificate : Except Unit Unit
  listThingPrincipals : Except Unit (List String)
  deleteThing : Except Unit Unit
  createThingGroup : Except Unit GroupResp
  addThingToThingGroup : Except Unit Unit
  deleteThingGroup : Except Unit Unit
  createDeployment : Except Unit DeployResp
  cancelDeployment : Except Unit Unit

/-- The environment: the outcome of the `n`-th external call of an
invocation (counting from 0) is read from `o n`. -/
abbrev Oracle := Nat → Resp

/-- An external SDK call together with the arguments the code passes.
`Option String` arguments model values that may be `undefined` in the
TypeScript source (a variable assigned only inside a failed `try` block). -/
inductive Call where
  | createRoleAlias (roleAlias roleArn : String)
  | deleteRoleAlias (roleAlias : String)
  | createThing (thingName : String)
  | createKeysAndCertificate
  | createPolicy (policyName policyDocument : String)
  | attachPolicy (policyName : String) (target : Option String)
  | attachThingPrincipal (thingName : String) (principal : Option String)
  | putParameter (name : String) (value : Option String)
  | describeEndpoint (endpointType : String)
  | deleteParameters (names : List String)
  | listPolicyVersions (policyName : String)
  | deletePolicyVersion (policyName versionId : String)
  | listTargetsForPolicy (policyName : String)
  | detachPolicy (policyName target : String)
  | deletePolicy (policyName : String)
  | listPrincipalThings (principal : String)
  | detachThingPrincipal (thingName principal : String)
  | listAttachedPolicies (target : String)
  | updateCertificate (certificateId newStatus : String)
  | deleteCertificate (certificateId : String)
  | listThingPrincipals (thingName : String)
  | deleteThing (thingName : String)
  | createThingGroup (name description : String)
  | addThingToThingGroup (groupName thingArn : String)
  | deleteThingGroup (name : String)
  | createDeployment (targetArn deploymentName : String) (components : List String)
  | cancelDeployment (deploymentId : String)
  deriving DecidableEq

/-- The response each handler builds: `PhysicalResourceId` plus the `Data`
output map (an `Option String` value models a possibly-`undefined` output). -/
structure CfnResponse where
  PhysicalResourceId : String
  Data : List (String × Option String)
  deriving DecidableEq

/-- A CloudFormation custom-resource event, generic over the kind-specific
`ResourceProperties`. -/
structure Event (P : Type) where
  RequestType : String
  ResourceProperties : P
  PhysicalResourceId : String

/-- The result of one handler invocation: the value returned (or `.error` if
the handler threw), the ordered trace of external calls issued, and whether
`process.exitCode = 1` was set. -/
abbrev HandlerResult := Except Unit CfnResponse × List Call × Bool

/-- Issue one external call: record it in the trace and read its outcome
from the oracle at the call's position. -/
def callAPI {α : Type} (o : Oracle) (t : List Call) (c : Call)
    (pick : Resp → Except Unit α) : Except Unit α × List Call :=
  (pick (o t.length), t ++ [c])

/-- `for (const x of xs) await client.send(...)` inside a `try` block: issue
one unit-returning call per element, aborting the loop at the first thrown
call (the exception is handled by the enclosing `try`). -/
def unitLoop {α : Type} (o : Oracle) (mk : α → Call)
    (pick : Resp → Except Unit Unit) : List α → List Call → Except Unit Unit × List Call
  | [], t => (.ok (), t)
  | x :: rest, t =>
    let r := callAPI o t (mk x) pick
    match r.1 with
    | .ok _ => unitLoop o mk pick rest r.2
    | .error e => (.error e, r.2)

/-- `response.field` captured into a possibly-`undefined` variable: `some`
of the projection on success, `none` (undefined) if the call threw. -/
def tryGet {α β : Type} (r : Except Unit α) (f : α → β) : Option β :=
  match r with
  | .ok a => some (f a)
  | .error _ => none

/-- A variable given a default before the `try` block and overwritten from
the response on success. -/
def getOr {α β : Type} (r : Except Unit α) (d : β) (f : α → β) : β :=
  match r with
  | .ok a => f a
  | .error _ => d

/-- Whether a call outcome was a thrown exception (the `catch` path ran). -/
def isErr {α : Type} : Except Unit α → Bool
  | .ok _ => false
  | .error _ => true

/-- First `some`-valued entry for a key in an output map (JS object access,
insertion order). -/
def lookupKey {β : Type} (k : String) : List (String × β) → Option β
  | [] => none
  | kv :: rest => if kv.1 = k then some kv.2 else lookupKey k rest

/- ## Credential-Exchange Binding (iot-role-alias, role-alias-fn.ts) -/

/-- `ResourceProperties` of the role-alias custom resource. -/
structure RoleAliasProps where
  FailCreate : Bool
  IotRoleAliasName : String
  IamRoleArn : String

/-- `onCreate` of role-alias-fn.ts: create the IoT role alias inside a
`try` that logs and sets the exit code on failure. -/
def onCreateRoleAlias (o : Oracle) (p : RoleAliasProps) : HandlerResult :=
  if p.FailCreate then (.error (), [], false)
  else
    let r := callAPI o [] (.createRoleAlias p.IotRoleAliasName p.IamRoleArn) Resp.createRoleAlias
    let role_alias_arn : Option String := tryGet r.1 RoleAliasResp.roleAliasArn
    let physical_resource_id : String := getOr r.1 "" RoleAliasResp.roleAlias
    (.ok ⟨physical_resource_id, [("RoleAliasArn", role_alias_arn)]⟩, r.2, isErr r.1)

/-- `onUpdate` of role-alias-fn.ts: no-op echoing the physical resource id. -/
def onUpdateRoleAlias (pid : String) : HandlerResult :=
  (.ok ⟨pid, []⟩, [], false)

/-- `onDelete` of role-alias-fn.ts: delete the role alias inside a `try`
whose `catch` only logs. -/
def onDeleteRoleAlias (o : Oracle) (p : RoleAliasProps) (pid : String) : HandlerResult :=
  let t := (callAPI o [] (.deleteRoleAlias p.IotRoleAliasName) Resp.deleteRoleAlias).2
  (.ok ⟨pid, []⟩, t, false)

/-- The role-alias Lambda `handler`: dispatch on `RequestType`, throwing on
any unrecognized value. -/
def handlerRoleAlias (o : Oracle) (e : Event RoleAliasProps) : HandlerResult :=
  if e.RequestType = "Create" then onCreateRoleAlias o e.ResourceProperties
  else if e.RequestType = "Update" then onUpdateRoleAlias e.PhysicalResourceId
  else if e.RequestType = "Delete" then onDeleteRoleAlias o e.ResourceProperties e.PhysicalResourceId
  else (.error (), [], false)

/- ## Device Identity Bundle (thing + certificate + policy handler) -/

/-- `ResourceProperties` of the thing/cert/policy custom resource
(`CertificateArn` is read by `onDelete`). -/
structure ThingCertPolicyProps where
  FailCreate : Bool
  ThingName : String
  IotPolicyName : String
  IotPolicy : String
  StackName : String
  CertificateArn : String

/-- SSM parameter name for the private key. -/
def pkName (p : ThingCertPolicyProps) : String :=
  "/" ++ p.StackName ++ "/" ++ p.ThingName ++ "/private_key"

/-- SSM parameter name for the certificate PEM. -/
def pemName (p : ThingCertPolicyProps) : String :=
  "/" ++ p.StackName ++ "/" ++ p.ThingName ++ "/certificate_pem"

/-- `onCreate` of the thing/cert/policy handler: nine external calls, each
step in its own `try` whose `catch` logs and sets the exit code (the two
endpoint lookups substitute a sentinel string instead). -/
def onCreateThingCertPolicy (o : Oracle) (p : ThingCertPolicyProps) : HandlerResult :=
  if p.FailCreate then (.error (), [], false)
  else
    let r1 := callAPI o [] (.createThing p.ThingName) Resp.createThing
    let thing_arn : Option String := tryGet r1.1 id
    let r2 := callAPI o r1.2 .createKeysAndCertificate Resp.createKeysAndCertificate
    let certificate_arn : Option String := tryGet r2.1 KeysResp.certificateArn
    let certificate_pem : Option String := tryGet r2.1 KeysResp.certificatePem
    let physical_resource_id : String := getOr r2.1 "" KeysResp.certificateId
    let private_key : Option String := tryGet r2.1 KeysResp.keyPairPrivateKey
    let r3 := callAPI o r2.2 (.createPolicy p.IotPolicyName p.IotPolicy) Resp.createPolicy
    let policy_arn : Option String := tryGet r3.1 id
    let r4 := callAPI o r3.2 (.attachPolicy p.IotPolicyName certificate_arn) Resp.attachPolicy
    let r5 := callAPI o r4.2 (.attachThingPrincipal p.ThingName certificate_arn) Resp.attachThingPrincipal
    let r6 := callAPI o r5.2 (.putParameter (pkName p) private_key) Resp.putParameter
    let s6 : List Call × Bool :=
      match r6.1 with
      | .error _ => (r6.2, true)
      | .ok _ =>
        let r7 := callAPI o r6.2 (.putParameter (pemName p) certificate_pem) Resp.putParameter
        (r7.2, isErr r7.1)
    let r8 := callAPI o s6.1 (.describeEndpoint "iot:Data-ATS") Resp.describeEndpoint
    let data_ats_endpoint_address : String := getOr r8.1 "stack_error: see log files" id
    let r9 := callAPI o r8.2 (.describeEndpoint "iot:CredentialProvider") Resp.describeEndpoint
    let credential_provider_endpoint_address : String := getOr r9.1 "stack_error: see log files" id
    (.ok ⟨physical_resource_id,
        [("ThingArn", thing_arn),
         ("ThingName", some p.ThingName),
         ("CertificateArn", certificate_arn),
         ("IotPolicyArn", policy_arn),
         ("PrivateKeySecretParameter", some (pkName p)),
         ("CertificatePemParameter", some (pemName p)),
         ("DataAtsEndpointAddress", some data_ats_endpoint_address),
         ("CredentialProviderEndpointAddress", some credential_provider_endpoint_address)]⟩,
      r9.2,
      isErr r1.1 || (isErr r2.1 || (isErr r3.1 || (isErr r4.1 || (isErr r5.1 || s6.2)))))

/-- `onUpdate` of the thing/cert/policy handler: no-op echoing the id. -/
def onUpdateThingCertPolicy (pid : String) : HandlerResult :=
  (.ok ⟨pid, []⟩, [], false)

/-- The policy-version pruning loop of `onDelete`: delete each non-default
version, aborting the loop at the first thrown call. -/
def pruneLoop (o : Oracle) (pn : String) : List PolicyVersion → List Call → List Call
  | [], t => t
  | v :: rest, t =>
    if v.isDefaultVersion then pruneLoop o pn rest t
    else
      let r := callAPI o t (.deletePolicyVersion pn v.versionId) Resp.deletePolicyVersion
      match r.1 with
      | .ok _ => pruneLoop o pn rest r.2
      | .error _ => r.2

/-- `onDelete` of the thing/cert/policy handler: eight `try` blocks whose
`catch` clauses only log, ending with the `DeleteThingCommand`.  The
detach-things loop reproduces the source faithfully: it iterates over the
things discovered by `ListPrincipalThingsCommand` but passes the
`ThingName` property, not the loop variable, to `DetachThingPrincipal`. -/
def onDeleteThingCertPolicy (o : Oracle) (p : ThingCertPolicyProps) (pid : String) : HandlerResult :=
  let tA := (callAPI o [] (.deleteParameters [pkName p, pemName p]) Resp.deleteParameters).2
  let rB := callAPI o tA (.listPolicyVersions p.IotPolicyName) Resp.listPolicyVersions
  let tB :=
    match rB.1 with
    | .error _ => rB.2
    | .ok versions => pruneLoop o p.IotPolicyName versions rB.2
  let rC := callAPI o tB (.listTargetsForPolicy p.IotPolicyName) Resp.listTargetsForPolicy
  let tC :=
    match rC.1 with
    | .error _ => rC.2
    | .ok targets =>
      (unitLoop o (fun tg => .detachPolicy p.IotPolicyName tg) Resp.detachPolicy targets rC.2).2
  let tD := (callAPI o tC (.deletePolicy p.IotPolicyName) Resp.deletePolicy).2
  let tE :=
    let rE1 := callAPI o tD (.listPrincipalThings p.CertificateArn) Resp.listPrincipalThings
    match rE1.1 with
    | .error _ => rE1.2
    | .ok things =>
      let lE1 := unitLoop o (fun _thing => .detachThingPrincipal p.ThingName p.CertificateArn)
        Resp.detachThingPrincipal things rE1.2
      match lE1.1 with
      | .error _ => lE1.2
      | .ok _ =>
        let rE2 := callAPI o lE1.2 (.listAttachedPolicies p.CertificateArn) Resp.listAttachedPolicies
        match rE2.1 with
        | .error _ => rE2.2
        | .ok policies =>
          (unitLoop o (fun pol => .detachPolicy pol p.CertificateArn)
            Resp.detachPolicy policies rE2.2).2
  let tF :=
    let rF := callAPI o tE (.updateCertificate pid "REVOKED") Resp.updateCertificate
    match rF.1 with
    | .error _ => rF.2
    | .ok _ => (callAPI o rF.2 (.deleteCertificate pid) Resp.deleteCertificate).2
  let tG :=
    let rG := callAPI o tF (.listThingPrincipals p.ThingName) Resp.listThingPrincipals
    match rG.1 with
    | .error _ => rG.2
    | .ok principals =>
      (unitLoop o (fun pr => .detachThingPrincipal p.ThingName pr)
        Resp.detachThingPrincipal principals rG.2).2
  let tH := (callAPI o tG (.deleteThing p.ThingName) Resp.deleteThing).2
  (.ok ⟨pid, []⟩, tH, false)

/-- The thing/cert/policy Lambda `handler`. -/
def handlerThingCertPolicy (o : Oracle) (e : Event ThingCertPolicyProps) : HandlerResult :=
  if e.RequestType = "Create" then onCreateThingCertPolicy o e.ResourceProperties
  else if e.RequestType = "Update" then onUpdateThingCertPolicy e.PhysicalResourceId
  else if e.RequestType = "Delete" then onDeleteThingCertPolicy o e.ResourceProperties e.PhysicalResourceId
  else (.error (), [], false)

/- ## Device Group Membership (thing-group handler) -/

/-- `ResourceProperties` of the thing-group custom resource. -/
structure ThingGroupProps where
  FailCreate : Bool
  ThingGroupName : String
  ThingGroupDescription : String
  ThingArnList : List String

/-- `onCreate` of the thing-group handler: create the group in one `try`,
then add each listed thing arn in a second `try`; each `catch` logs and
sets the exit code. -/
def onCreateThingGroup (o : Oracle) (p : ThingGroupProps) : HandlerResult :=
  if p.FailCreate then (.error (), [], false)
  else
    let r1 := callAPI o [] (.createThingGroup p.ThingGroupName p.ThingGroupDescription)
      Resp.createThingGroup
    let group_arn : Option String := tryGet r1.1 GroupResp.thingGroupArn
    let group_id : Option String := tryGet r1.1 GroupResp.thingGroupId
    let physical_resource_id : String := getOr r1.1 "" GroupResp.thingGroupId
    let l := unitLoop o (fun arn => .addThingToThingGroup p.ThingGroupName arn)
      Resp.addThingToThingGroup p.ThingArnList r1.2
    (.ok ⟨physical_resource_id,
        [("ThingGroupName", some p.ThingGroupName),
         ("ThingGroupArn", group_arn),
         ("ThingGroupId", group_id)]⟩,
      l.2, isErr r1.1 || isErr l.1)

/-- `onUpdate` of the thing-group handler: no-op echoing the id. -/
def onUpdateThingGroup (pid : String) : HandlerResult :=
  (.ok ⟨pid, []⟩, [], false)

/-- `onDelete` of the thing-group handler: delete the group in one `try`
whose `catch` only logs. -/
def onDeleteThingGroup (o : Oracle) (p : ThingGroupProps) (pid : String) : HandlerResult :=
  let t := (callAPI o [] (.deleteThingGroup p.ThingGroupName) Resp.deleteThingGroup).2
  (.ok ⟨pid, []⟩, t, false)

/-- The thing-group Lambda `handler`. -/
def handlerThingGroup (o : Oracle) (e : Event ThingGroupProps) : HandlerResult :=
  if e.RequestType = "Create" then onCreateThingGroup o e.ResourceProperties
  else if e.RequestType = "Update" then onUpdateThingGroup e.PhysicalResourceId
  else if e.RequestType = "Delete" then onDeleteThingGroup o e.ResourceProperties e.PhysicalResourceId
  else (.error (), [], false)

/- ## Fleet Deployment (greengrass-v2-deployment-fn.ts) -/

/-- `ResourceProperties` of the greengrass deployment custom resource
(`Components` carries the component names; `DeploymentId` is read by
`onUpdate`/`onDelete`). -/
structure GreengrassProps where
  FailCreate : Bool
  TargetArn : String
  DeploymentName : String
  Components : List String
  DeploymentId : String

/-- `onCreate` of greengrass-v2-deployment-fn.ts: one external call whose
`catch` RETHROWS (`throw new Error(...)`), unlike the other handlers. -/
def onCreateGreengrassDeployment (o : Oracle) (p : GreengrassProps) : HandlerResult :=
  if p.FailCreate then (.error (), [], false)
  else
    let r := callAPI o [] (.createDeployment p.TargetArn p.DeploymentName p.Components)
      Resp.createDeployment
    match r.1 with
    | .error _ => (.error (), r.2, false)
    | .ok d =>
      (.ok ⟨d.deploymentId,
          [("DeploymentId", some d.deploymentId),
           ("IotJobId", some d.iotJobId),
           ("IotJobArn", some d.iotJobArn)]⟩,
        r.2, false)

/-- `onUpdate` of greengrass-v2-deployment-fn.ts: no-op echoing the id. -/
def onUpdateGreengrassDeployment (pid : String) : HandlerResult :=
  (.ok ⟨pid, []⟩, [], false)

/-- `onDelete` of greengrass-v2-deployment-fn.ts: cancel the deployment in
one `try` whose `catch` only warns. -/
def onDeleteGreengrassDeployment (o : Oracle) (p : GreengrassProps) (pid : String) : HandlerResult :=
  let t := (callAPI o [] (.cancelDeployment p.DeploymentId) Resp.cancelDeployment).2
  (.ok ⟨pid, []⟩, t, false)

/-- The greengrass deployment Lambda `handler`. -/
def handlerGreengrassDeployment (o : Oracle) (e : Event GreengrassProps) : HandlerResult :=
  if e.RequestType = "Create" then onCreateGreengrassDeployment o e.ResourceProperties
  else if e.RequestType = "Update" then onUpdateGreengrassDeployment e.PhysicalResourceId
  else if e.RequestType = "Delete" then onDeleteGreengrassDeployment o e.ResourceProperties e.PhysicalResourceId
  else (.error (), [], false)

/- ## GreengrassV2Deployment.addComponent (CDK construct) -/

/-- One component entry of the `Component` map (name-keyed). -/
structure CompEntry where
  componentVersion : String
  configurationUpdateMerge : Option String
  configurationUpdateReset : Option String
  deriving DecidableEq

/-- `Object.keys(component).forEach(...)` of `addComponent`: for each key of
the argument, reject (and set the exit code) if the key is already in the
accumulated component list, else insert it. -/
def addComponentGo : List (String × CompEntry) → Bool → List (String × CompEntry) →
    List (String × CompEntry) × Bool
  | acc, flag, [] => (acc, flag)
  | acc, flag, kv :: rest =>
    if (lookupKey kv.1 acc).isSome then addComponentGo acc true rest
    else addComponentGo (acc ++ [kv]) flag rest

/-- `GreengrassV2Deployment.addComponent`: returns the updated
`componentList` and whether `process.exitCode = 1` was set. -/
def addComponent (componentList component : List (String × CompEntry)) :
    List (String × CompEntry) × Bool :=
  addComponentGo componentList false component

/- ## Concrete oracles and inputs used by closed theorems -/

/-- A response bundle in which every external call succeeds. -/
def okResp : Resp where
  createRoleAlias := .ok ⟨"ra-arn", "ra-name"⟩
  deleteRoleAlias := .ok ()
  createThing := .ok "thing-arn"
  createKeysAndCertificate := .ok ⟨"cert-arn", "cert-pem", "cert-id", "priv-key"⟩
  createPolicy := .ok "policy-arn"
  attachPolicy := .ok ()
  attachThingPrincipal := .ok ()
  putParameter := .ok ()
  describeEndpoint := .ok "endpoint.example.com"
  deleteParameters := .ok ()
  listPolicyVersions := .ok []
  deletePolicyVersion := .ok ()
  listTargetsForPolicy := .ok []
  detachPolicy := .ok ()
  deletePolicy := .ok ()
  listPrincipalThings := .ok []
  detachThingPrincipal := .ok ()
  listAttachedPolicies := .ok []
  updateCertificate := .ok ()
  deleteCertificate := .ok ()
  listThingPrincipals := .ok []
  deleteThing := .ok ()
  createThingGroup := .ok ⟨"tg-arn", "tg-id"⟩
  addThingToThingGroup := .ok ()
  deleteThingGroup := .ok ()
  createDeployment := .ok ⟨"dep-id", "job-id", "job-arn"⟩
  cancelDeployment := .ok ()

/-- Thing/cert/policy properties used by closed theorems. -/
def pTCP : ThingCertPolicyProps :=
  { FailCreate := false, ThingName := "myThing", IotPolicyName := "pol",
    IotPolicy := "doc", StackName := "stk", CertificateArn := "certArn" }

/-- Oracle in which every call succeeds. -/
def oAllOk : Oracle := fun _ => okResp

/-- Oracle in which `CreateThingCommand` and `CreateThingGroupCommand`
throw and every other call succeeds. -/
def oFailFirst : Oracle := fun _ =>
  { okResp with createThing := .error (), createThingGroup := .error () }

/-- Oracle in which `CreateDeploymentCommand` throws. -/
def oFailDeploy : Oracle := fun _ => { okResp with createDeployment := .error () }

/-- Oracle for the detach bug: `ListPrincipalThingsCommand` discovers a
thing named differently from the `ThingName` property. -/
def oOtherThing : Oracle := fun _ =>
  { okResp with listPrincipalThings := .ok ["otherThing"], listThingPrincipals := .ok [] }

/-- Thing-group properties of the Device Group Membership scenario. -/
def pTG : ThingGroupProps :=
  { FailCreate := false, ThingGroupName := "G1", ThingGroupDescription := "desc",
    ThingArnList := ["arn:a", "arn:b"] }

/-- Greengrass deployment properties used by closed theorems. -/
def pGG : GreengrassProps :=
  { FailCreate := false, TargetArn := "target-arn", DeploymentName := "dep",
    Components := ["compA"], DeploymentId := "dep-id" }

/-- Role-alias properties used by closed theorems. -/
def pRA : RoleAliasProps :=
  { FailCreate := false, IotRoleAliasName := "ra-name", IamRoleArn := "iam-arn" }

/-- A concrete component entry. -/
def eA : CompEntry := ⟨"1.0.0", none, none⟩

/-- Another concrete component entry. -/
def eB : CompEntry := ⟨"2.0.0", none, none⟩

/- ## Statement vocabulary derived from the embedding -/

/-- The certificate arn captured by the Create sequence: the second external
call's `certificateArn` on success, undefined on failure. -/
def certArnOf (o : Oracle) : Option String :=
  tryGet ((o 1).createKeysAndCertificate) KeysResp.certificateArn

/-- The private key captured by the Create sequence. -/
def privateKeyOf (o : Oracle) : Option String :=
  tryGet ((o 1).createKeysAndCertificate) KeysResp.keyPairPrivateKey

/-- The certificate PEM captured by the Create sequence. -/
def certPemOf (o : Oracle) : Option String :=
  tryGet ((o 1).createKeysAndCertificate) KeysResp.certificatePem

/-- Index of the `iot:Data-ATS` endpoint lookup in the Create call sequence:
7 if the second `PutParameterCommand` was issued, else 6. -/
def endpointBase (o : Oracle) : Nat :=
  match (o 5).putParameter with
  | .ok _ => 7
  | .error _ => 6

/-- Value stored for an endpoint output: the resolved address on success,
the sentinel string on a thrown lookup. -/
def endpointResult (r : Except Unit String) : String :=
  getOr r "stack_error: see log files" id

/-- The identity token of a handler result (`none` when the handler threw). -/
def physId : Except Unit CfnResponse → Option String
  | .ok r => some r.PhysicalResourceId
  | .error _ => none

/-- The output map of a handler result (empty when the handler threw). -/
def respData : Except Unit CfnResponse → List (String × Option String)
  | .ok r => r.Data
  | .error _ => []

/-- An intent the dispatcher does not recognize. -/
def badIntent (rt : String) : Prop :=
  rt ≠ "Create" ∧ rt ≠ "Update" ∧ rt ≠ "Delete"

/- ## Helper lemmas -/

theorem unitLoop_trace_extend {α : Type} (o : Oracle) (mk : α → Call)
    (pick : Resp → Except Unit Unit) :
    ∀ (xs : List α) (t : List Call), ∃ ext, (unitLoop o mk pick xs t).2 = t ++ ext := by
  intro xs
  induction xs with
  | nil => intro t; exact ⟨[], by simp [unitLoop]⟩
  | cons x rest ih =>
    intro t
    rcases hx : pick (o t.length) with u | u
    · exact ⟨[mk x], by simp [unitLoop, callAPI, hx]⟩
    · obtain ⟨ext, he⟩ := ih (t ++ [mk x])
      exact ⟨[mk x] ++ ext, by simp [unitLoop, callAPI, hx, he]⟩

theorem unitLoop_head_mem {α : Type} (o : Oracle) (mk : α → Call)
    (pick : Resp → Except Unit Unit) (x : α) (xs : List α) (t : List Call) :
    mk x ∈ (unitLoop o mk pick (x :: xs) t).2 := by
  rcases hx : pick (o t.length) with u | u
  · simp [unitLoop, callAPI, hx]
  · obtain ⟨ext, he⟩ := unitLoop_trace_extend o mk pick xs (t ++ [mk x])
    simp [unitLoop, callAPI, hx, he]

/- ## C2: Delete never raises and echoes the prior identity -/

/-- C2: for every resource kind, every properties map, every prior identity
and every combination of unwind-step outcomes, the Delete handler returns
(rather than raising) a response whose `PhysicalResourceId` is the
envelope's `PhysicalResourceId` and whose `Data` map is empty. -/
theorem delete_never_raises (o : Oracle) (pid : String)
    (p1 : RoleAliasProps) (p2 : ThingCertPolicyProps) (p3 : ThingGroupProps)
    (p4 : GreengrassProps) :
    (handlerRoleAlias o ⟨"Delete", p1, pid⟩).1 = .ok ⟨pid, []⟩ ∧
    (handlerThingCertPolicy o ⟨"Delete", p2, pid⟩).1 = .ok ⟨pid, []⟩ ∧
    (handlerThingGroup o ⟨"Delete", p3, pid⟩).1 = .ok ⟨pid, []⟩ ∧
    (handlerGreengrassDeployment o ⟨"Delete", p4, pid⟩).1 = .ok ⟨pid, []⟩ :=
  ⟨rfl, rfl, rfl, rfl⟩

/- ## C3: Update is an identity-preserving no-op with no external calls -/

/-- C3: for every resource kind, every properties map and every non-empty
prior identity, Update returns that identity unchanged with an empty
outputs map, issues no external call, and does not set the exit code. -/
theorem update_identity_noop (o : Oracle) (pid : String) (_hpid : pid ≠ "")
    (p1 : RoleAliasProps) (p2 : ThingCertPolicyProps) (p3 : ThingGroupProps)
    (p4 : GreengrassProps) :
    handlerRoleAlias o ⟨"Update", p1, pid⟩ = (.ok ⟨pid, []⟩, [], false) ∧
    handlerThingCertPolicy o ⟨"Update", p2, pid⟩ = (.ok ⟨pid, []⟩, [], false) ∧
    handlerThingGroup o ⟨"Update", p3, pid⟩ = (.ok ⟨pid, []⟩, [], false) ∧
    handlerGreengrassDeployment o ⟨"Update", p4, pid⟩ = (.ok ⟨pid, []⟩, [], false) :=
  ⟨rfl, rfl, rfl, rfl⟩

/-- Witness for C3 at a concrete non-empty prior identity. -/
theorem update_identity_noop_witness :
    ("prior-id" : String) ≠ "" ∧
    handlerRoleAlias oAllOk ⟨"Update", pRA, "prior-id"⟩ = (.ok ⟨"prior-id", []⟩, [], false) :=
  ⟨by decide, (update_identity_noop oAllOk "prior-id" (by decide) pRA pTCP pTG pGG).1⟩

/- ## C4: the thing deletion is the last external call of Delete -/

/-- C4: for the Device Identity Bundle kind, in every Delete invocation the
`DeleteThingCommand` for the registered thing is issued, and it is the last
external call of the trace — hence after every detach call — regardless of
which unwind steps failed. -/
theorem delete_thing_last (o : Oracle) (p : ThingCertPolicyProps) (pid : String) :
    ∃ pre, (handlerThingCertPolicy o ⟨"Delete", p, pid⟩).2.1 =
      pre ++ [Call.deleteThing p.ThingName] :=
  ⟨_, rfl⟩

/- ## C8: Device Group Membership Create scenario -/

/-- C8: a Create envelope for the thing group `G1` with two listed thing
arns issues exactly one group-create call followed by the two add-member
calls in list order, returns the created group's id as the identity token,
and outputs the group's arn and id. -/
theorem thing_group_create_scenario :
    (handlerThingGroup oAllOk ⟨"Create", pTG, ""⟩).1 =
      .ok ⟨"tg-id", [("ThingGroupName", some "G1"), ("ThingGroupArn", some "tg-arn"),
                     ("ThingGroupId", some "tg-id")]⟩ ∧
    (handlerThingGroup oAllOk ⟨"Create", pTG, ""⟩).2.1 =
      [Call.createThingGroup "G1" "desc",
       Call.addThingToThingGroup "G1" "arn:a",
       Call.addThingToThingGroup "G1" "arn:b"] :=
  ⟨rfl, rfl⟩

/- ## C1: a failing Create step does not short-circuit the sequence -/

/-- The full trace of the Device Identity Bundle Create sequence: every
step's calls are issued whatever the outcomes; only the second
`PutParameterCommand` is conditional (it shares a `try` with the first). -/
theorem onCreateThingCertPolicy_trace (o : Oracle) (p : ThingCertPolicyProps)
    (h : p.FailCreate = false) :
    (onCreateThingCertPolicy o p).2.1 =
      [Call.createThing p.ThingName, Call.createKeysAndCertificate,
       Call.createPolicy p.IotPolicyName p.IotPolicy,
       Call.attachPolicy p.IotPolicyName (certArnOf o),
       Call.attachThingPrincipal p.ThingName (certArnOf o),
       Call.putParameter (pkName p) (privateKeyOf o)] ++
      (match (o 5).putParameter with
       | .ok _ => [Call.putParameter (pemName p) (certPemOf o)]
       | .error _ => []) ++
      [Call.describeEndpoint "iot:Data-ATS", Call.describeEndpoint "iot:CredentialProvider"] := by
  rcases h6 : (o 5).putParameter with u | u <;>
    simp [onCreateThingCertPolicy, callAPI, h, h6, certArnOf, privateKeyOf, certPemOf]

/-- C1 counterexample: with an oracle that makes the first Create step
(`CreateThingCommand`) throw, the second step's external call
(`CreateKeysAndCertificateCommand`) is still issued. -/
theorem create_abort_counterexample :
    pTCP.FailCreate = false ∧
    (oFailFirst 0).createThing = .error () ∧
    Call.createKeysAndCertificate ∈ (onCreateThingCertPolicy oFailFirst pTCP).2.1 := by
  refine ⟨rfl, rfl, ?_⟩
  decide

/-- C1 (amended): when a Create step of the Device Identity Bundle or the
Device Group Membership sequence fails, the remaining steps are still
invoked — every step's leading external call appears in the trace for every
combination of outcomes — and the failure is recorded by setting the
process exit code, rather than aborting the sequence. -/
theorem create_steps_continue (o : Oracle) (p : ThingCertPolicyProps) (q : ThingGroupProps)
    (a : String) (rest : List String)
    (hp : p.FailCreate = false) (hq : q.FailCreate = false)
    (hl : q.ThingArnList = a :: rest) :
    (Call.createThing p.ThingName ∈ (onCreateThingCertPolicy o p).2.1 ∧
     Call.createKeysAndCertificate ∈ (onCreateThingCertPolicy o p).2.1 ∧
     Call.createPolicy p.IotPolicyName p.IotPolicy ∈ (onCreateThingCertPolicy o p).2.1 ∧
     Call.attachPolicy p.IotPolicyName (certArnOf o) ∈ (onCreateThingCertPolicy o p).2.1 ∧
     Call.attachThingPrincipal p.ThingName (certArnOf o) ∈ (onCreateThingCertPolicy o p).2.1 ∧
     Call.putParameter (pkName p) (privateKeyOf o) ∈ (onCreateThingCertPolicy o p).2.1 ∧
     Call.describeEndpoint "iot:Data-ATS" ∈ (onCreateThingCertPolicy o p).2.1 ∧
     Call.describeEndpoint "iot:CredentialProvider" ∈ (onCreateThingCertPolicy o p).2.1) ∧
    ((o 0).createThing = .error () → (onCreateThingCertPolicy o p).2.2 = true) ∧
    (Call.createThingGroup q.ThingGroupName q.ThingGroupDescription ∈ (onCreateThingGroup o q).2.1 ∧
     Call.addThingToThingGroup q.ThingGroupName a ∈ (onCreateThingGroup o q).2.1) ∧
    ((o 0).createThingGroup = .error () → (onCreateThingGroup o q).2.2 = true) := by
  refine ⟨?_, ?_, ⟨?_, ?_⟩, ?_⟩
  · rw [onCreateThingCertPolicy_trace o p hp]
    rcases (o 5).putParameter with u | u <;> simp
  · intro h0
    simp [onCreateThingCertPolicy, callAPI, hp, h0, isErr]
  · have he := unitLoop_trace_extend o (fun arn => Call.addThingToThingGroup q.ThingGroupName arn)
      Resp.addThingToThingGroup q.ThingArnList
      [Call.createThingGroup q.ThingGroupName q.ThingGroupDescription]
    obtain ⟨ext, hext⟩ := he
    simp [onCreateThingGroup, callAPI, hq, hext]
  · have hm := unitLoop_head_mem o (fun arn => Call.addThingToThingGroup q.ThingGroupName arn)
      Resp.addThingToThingGroup a rest
      [Call.createThingGroup q.ThingGroupName q.ThingGroupDescription]
    simp [onCreateThingGroup, callAPI, hq, hl]
    simpa using hm
  · intro h0
    simp [onCreateThingGroup, callAPI, hq, h0, isErr]

/-- Witness for C1's amended theorem, at an oracle that fails the first
step of each sequence. -/
theorem create_steps_continue_witness :
    pTCP.FailCreate = false ∧ pTG.FailCreate = false ∧
    Call.createKeysAndCertificate ∈ (onCreateThingCertPolicy oFailFirst pTCP).2.1 ∧
    Call.addThingToThingGroup "G1" "arn:a" ∈ (onCreateThingGroup oFailFirst pTG).2.1 :=
  ⟨rfl, rfl,
   (create_steps_continue oFailFirst pTCP pTG "arn:a" ["arn:b"] rfl rfl rfl).1.2.1,
   (create_steps_continue oFailFirst pTCP pTG "arn:a" ["arn:b"] rfl rfl rfl).2.2.1.2⟩

/- ## C5: when the dispatcher fails -/

theorem handlerRoleAlias_error_iff (o : Oracle) (rt pid : String) (p : RoleAliasProps) :
    (handlerRoleAlias o ⟨rt, p, pid⟩).1 = .error () ↔
      badIntent rt ∨ (rt = "Create" ∧ p.FailCreate = true) := by
  by_cases hc : rt = "Create"
  · subst hc
    rcases hf : p.FailCreate <;>
      simp [handlerRoleAlias, onCreateRoleAlias, badIntent, hf]
  · by_cases hu : rt = "Update"
    · subst hu
      simp [handlerRoleAlias, onUpdateRoleAlias, badIntent]
    · by_cases hd : rt = "Delete"
      · subst hd
        simp [handlerRoleAlias, onDeleteRoleAlias, badIntent]
      · simp [handlerRoleAlias, badIntent, hc, hu, hd]

theorem handlerThingCertPolicy_error_iff (o : Oracle) (rt pid : String)
    (p : ThingCertPolicyProps) :
    (handlerThingCertPolicy o ⟨rt, p, pid⟩).1 = .error () ↔
      badIntent rt ∨ (rt = "Create" ∧ p.FailCreate = true) := by
  by_cases hc : rt = "Create"
  · subst hc
    rcases hf : p.FailCreate <;>
      simp [handlerThingCertPolicy, onCreateThingCertPolicy, badIntent, hf]
  · by_cases hu : rt = "Update"
    · subst hu
      simp [handlerThingCertPolicy, onUpdateThingCertPolicy, badIntent]
    · by_cases hd : rt = "Delete"
      · subst hd
        simp [handlerThingCertPolicy, onDeleteThingCertPolicy, badIntent]
      · simp [handlerThingCertPolicy, badIntent, hc, hu, hd]

theorem handlerThingGroup_error_iff (o : Oracle) (rt pid : String) (p : ThingGroupProps) :
    (handlerThingGroup o ⟨rt, p, pid⟩).1 = .error () ↔
      badIntent rt ∨ (rt = "Create" ∧ p.FailCreate = true) := by
  by_cases hc : rt = "Create"
  · subst hc
    rcases hf : p.FailCreate <;>
      simp [handlerThingGroup, onCreateThingGroup, badIntent, hf]
  · by_cases hu : rt = "Update"
    · subst hu
      simp [handlerThingGroup, onUpdateThingGroup, badIntent]
    · by_cases hd : rt = "Delete"
      · subst hd
        simp [handlerThingGroup, onDeleteThingGroup, badIntent]
      · simp [handlerThingGroup, badIntent, hc, hu, hd]

theorem handlerGreengrass_error_iff (o : Oracle) (rt pid : String) (p : GreengrassProps) :
    (handlerGreengrassDeployment o ⟨rt, p, pid⟩).1 = .error () ↔
      badIntent rt ∨ (rt = "Create" ∧ p.FailCreate = true) ∨
      (rt = "Create" ∧ p.FailCreate = false ∧ (o 0).createDeployment = .error ()) := by
  by_cases hc : rt = "Create"
  · subst hc
    rcases hf : p.FailCreate
    · rcases h0 : (o 0).createDeployment with u | u <;>
        simp [handlerGreengrassDeployment, onCreateGreengrassDeployment, callAPI,
          badIntent, hf, h0]
    · simp [handlerGreengrassDeployment, onCreateGreengrassDeployment, badIntent, hf]
  · by_cases hu : rt = "Update"
    · subst hu
      simp [handlerGreengrassDeployment, onUpdateGreengrassDeployment, badIntent]
    · by_cases hd : rt = "Delete"
      · subst hd
        simp [handlerGreengrassDeployment, onDeleteGreengrassDeployment, badIntent]
      · simp [handlerGreengrassDeployment, badIntent, hc, hu, hd]

/-- C5 counterexample: a Create envelope with a recognized intent and
`FailCreate` unset still makes the fleet-deployment dispatcher raise when
the `CreateDeploymentCommand` call throws. -/
theorem handle_fail_counterexample :
    pGG.FailCreate = false ∧
    (handlerGreengrassDeployment oFailDeploy ⟨"Create", pGG, ""⟩).1 = .error () :=
  ⟨rfl, rfl⟩

/-- C5 (amended): a dispatcher fails exactly on an unrecognized intent, on
Create with the force-fail flag set, or — for the fleet-deployment kind
only — on Create when the `CreateDeploymentCommand` call throws; in the
unrecognized-intent and force-fail cases it fails before issuing any
external call. -/
theorem handle_failure_characterization (o : Oracle) (rt pid : String)
    (p1 : RoleAliasProps) (p2 : ThingCertPolicyProps) (p3 : ThingGroupProps)
    (p4 : GreengrassProps) :
    ((handlerRoleAlias o ⟨rt, p1, pid⟩).1 = .error () ↔
      badIntent rt ∨ (rt = "Create" ∧ p1.FailCreate = true)) ∧
    ((handlerThingCertPolicy o ⟨rt, p2, pid⟩).1 = .error () ↔
      badIntent rt ∨ (rt = "Create" ∧ p2.FailCreate = true)) ∧
    ((handlerThingGroup o ⟨rt, p3, pid⟩).1 = .error () ↔
      badIntent rt ∨ (rt = "Create" ∧ p3.FailCreate = true)) ∧
    ((handlerGreengrassDeployment o ⟨rt, p4, pid⟩).1 = .error () ↔
      badIntent rt ∨ (rt = "Create" ∧ p4.FailCreate = true) ∨
      (rt = "Create" ∧ p4.FailCreate = false ∧ (o 0).createDeployment = .error ())) ∧
    (badIntent rt →
      (handlerRoleAlias o ⟨rt, p1, pid⟩).2.1 = [] ∧
      (handlerThingCertPolicy o ⟨rt, p2, pid⟩).2.1 = [] ∧
      (handlerThingGroup o ⟨rt, p3, pid⟩).2.1 = [] ∧
      (handlerGreengrassDeployment o ⟨rt, p4, pid⟩).2.1 = []) ∧
    (rt = "Create" →
      (p1.FailCreate = true → (handlerRoleAlias o ⟨rt, p1, pid⟩).2.1 = []) ∧
      (p2.FailCreate = true → (handlerThingCertPolicy o ⟨rt, p2, pid⟩).2.1 = []) ∧
      (p3.FailCreate = true → (handlerThingGroup o ⟨rt, p3, pid⟩).2.1 = []) ∧
      (p4.FailCreate = true → (handlerGreengrassDeployment o ⟨rt, p4, pid⟩).2.1 = [])) := by
  refine ⟨handlerRoleAlias_error_iff o rt pid p1, handlerThingCertPolicy_error_iff o rt pid p2,
    handlerThingGroup_error_iff o rt pid p3, handlerGreengrass_error_iff o rt pid p4, ?_, ?_⟩
  · rintro ⟨h1, h2, h3⟩
    refine ⟨?_, ?_, ?_, ?_⟩ <;>
      simp [handlerRoleAlias, handlerThingCertPolicy, handlerThingGroup,
        handlerGreengrassDeployment, h1, h2, h3]
  · rintro rfl
    refine ⟨fun hf => ?_, fun hf => ?_, fun hf => ?_, fun hf => ?_⟩ <;>
      simp [handlerRoleAlias, onCreateRoleAlias, handlerThingCertPolicy,
        onCreateThingCertPolicy, handlerThingGroup, onCreateThingGroup,
        handlerGreengrassDeployment, onCreateGreengrassDeployment, hf]

/-- Witness for C5's amended theorem: an unrecognized intent fails, and
with a recognized intent and no force-fail flag the role-alias dispatcher
does not fail. -/
theorem handle_failure_characterization_witness :
    (handlerRoleAlias oAllOk ⟨"Read", pRA, "id1"⟩).1 = .error () ∧
    ¬(handlerRoleAlias oAllOk ⟨"Create", pRA, "id1"⟩).1 = .error () :=
  ⟨(handle_failure_characterization oAllOk "Read" "id1" pRA pTCP pTG pGG).1.mpr
      (Or.inl (by refine ⟨?_, ?_, ?_⟩ <;> decide)),
   fun h =>
     by
       have := (handle_failure_characterization oAllOk "Create" "id1" pRA pTCP pTG pGG).1.mp h
       rcases this with hb | hf
       · exact hb.1 rfl
       · exact absurd hf.2 (by decide)⟩

/- ## C6: the detach-things loop ignores the discovered thing -/

/-- C6 (code bug): when `ListPrincipalThingsCommand` discovers the thing
`otherThing` attached to the certificate, the Delete trace contains a
`DetachThingPrincipalCommand` naming the `ThingName` property (`myThing`)
— issued once per discovered thing, with the loop variable unused — and no
detach call naming the discovered thing `otherThing`. -/
theorem detach_thing_bug_eval :
    (oOtherThing 0).listPrincipalThings = .ok ["otherThing"] ∧
    Call.detachThingPrincipal "myThing" "certArn"
      ∈ (onDeleteThingCertPolicy oOtherThing pTCP "cert-id").2.1 ∧
    Call.detachThingPrincipal "otherThing" "certArn"
      ∉ (onDeleteThingCertPolicy oOtherThing pTCP "cert-id").2.1 := by
  refine ⟨rfl, ?_, ?_⟩ <;> decide

/- ## C7: a failed Create still returns the captured partial identity -/

/-- C7 counterexample: for the fleet-deployment kind a failing Create step
does not return normally — the handler raises. -/
theorem create_partial_identity_counterexample :
    pGG.FailCreate = false ∧
    (onCreateGreengrassDeployment oFailDeploy pGG).1 = .error () :=
  ⟨rfl, rfl⟩

/-- C7 (amended): for the credential-exchange binding, device identity
bundle and device group membership kinds, Create always returns normally
with an identity token equal to the partial value captured before any
failure (the created alias name, certificate id, or group id) when it was
captured, else the empty string; the fleet-deployment kind instead raises
when its create step fails. -/
theorem create_partial_identity (o : Oracle)
    (p1 : RoleAliasProps) (p2 : ThingCertPolicyProps) (p3 : ThingGroupProps)
    (p4 : GreengrassProps)
    (h1 : p1.FailCreate = false) (h2 : p2.FailCreate = false)
    (h3 : p3.FailCreate = false) (h4 : p4.FailCreate = false)
    (hd : (o 0).createDeployment = .error ()) :
    physId (onCreateRoleAlias o p1).1 =
      some (getOr ((o 0).createRoleAlias) "" RoleAliasResp.roleAlias) ∧
    physId (onCreateThingCertPolicy o p2).1 =
      some (getOr ((o 1).createKeysAndCertificate) "" KeysResp.certificateId) ∧
    physId (onCreateThingGroup o p3).1 =
      some (getOr ((o 0).createThingGroup) "" GroupResp.thingGroupId) ∧
    (onCreateGreengrassDeployment o p4).1 = .error () := by
  refine ⟨?_, ?_, ?_, ?_⟩
  · simp [onCreateRoleAlias, callAPI, physId, h1]
  · simp [onCreateThingCertPolicy, callAPI, physId, h2]
  · simp [onCreateThingGroup, callAPI, physId, h3]
  · simp [onCreateGreengrassDeployment, callAPI, h4, hd]

/-- Witness for C7's amended theorem: with the certificate step succeeding
and the deployment step failing, the device-identity Create returns the
certificate id and the fleet-deployment Create raises. -/
theorem create_partial_identity_witness :
    pTCP.FailCreate = false ∧
    physId (onCreateThingCertPolicy oFailDeploy pTCP).1 = some "cert-id" ∧
    (onCreateGreengrassDeployment oFailDeploy pGG).1 = .error () :=
  ⟨rfl,
   ((create_partial_identity oFailDeploy pRA pTCP pTG pGG rfl rfl rfl rfl rfl).2.1).trans rfl,
   (create_partial_identity oFailDeploy pRA pTCP pTG pGG rfl rfl rfl rfl rfl).2.2.2⟩

/- ## C9: endpoint-lookup outputs never fail the Create -/

/-- C9: the Device Identity Bundle Create returns normally for every
combination of outcomes; each endpoint output equals the address returned
by its `DescribeEndpointCommand` call on success and the sentinel
`"stack_error: see log files"` when that call throws, while the other
outputs remain intact. -/
theorem endpoint_sentinel (o : Oracle) (p : ThingCertPolicyProps)
    (h : p.FailCreate = false) :
    isErr (onCreateThingCertPolicy o p).1 = false ∧
    lookupKey "DataAtsEndpointAddress" (respData (onCreateThingCertPolicy o p).1) =
      some (some (endpointResult ((o (endpointBase o)).describeEndpoint))) ∧
    lookupKey "CredentialProviderEndpointAddress" (respData (onCreateThingCertPolicy o p).1) =
      some (some (endpointResult ((o (endpointBase o + 1)).describeEndpoint))) ∧
    lookupKey "ThingName" (respData (onCreateThingCertPolicy o p).1) =
      some (some p.ThingName) ∧
    lookupKey "PrivateKeySecretParameter" (respData (onCreateThingCertPolicy o p).1) =
      some (some (pkName p)) := by
  rcases h6 : (o 5).putParameter with u | u <;>
    simp [onCreateThingCertPolicy, callAPI, h, h6, isErr, respData, lookupKey,
      endpointBase, endpointResult]

/-- Witness for C9 with both endpoint lookups succeeding. -/
theorem endpoint_sentinel_witness :
    pTCP.FailCreate = false ∧
    lookupKey "DataAtsEndpointAddress" (respData (onCreateThingCertPolicy oAllOk pTCP).1) =
      some (some "endpoint.example.com") :=
  ⟨rfl, ((endpoint_sentinel oAllOk pTCP rfl).2.1).trans rfl⟩

/- ## C10: addComponent never overwrites an existing component -/

theorem lookupKey_append {β : Type} (l1 l2 : List (String × β)) (k : String) :
    lookupKey k (l1 ++ l2) = ((lookupKey k l1).orElse fun _ => lookupKey k l2) := by
  induction l1 with
  | nil => simp [lookupKey, Option.orElse]
  | cons kv rest ih =>
    by_cases hk : kv.1 = k <;> simp [lookupKey, hk, ih, Option.orElse]

theorem addComponentGo_lookup (c : List (String × CompEntry)) :
    ∀ (acc : List (String × CompEntry)) (flag : Bool) (k : String),
    lookupKey k (addComponentGo acc flag c).1 =
      ((lookupKey k acc).orElse fun _ => lookupKey k c) := by
  induction c with
  | nil =>
    intro acc flag k
    rcases ha : lookupKey k acc with _ | v <;>
      simp [addComponentGo, lookupKey, ha, Option.orElse]
  | cons kv rest ih =>
    intro acc flag k
    rcases hl : lookupKey kv.1 acc with _ | v
    · have hstep : addComponentGo acc flag (kv :: rest) = addComponentGo (acc ++ [kv]) flag rest := by
        simp [addComponentGo, hl]
      rw [hstep, ih, lookupKey_append]
      rcases ha : lookupKey k acc with _ | w
      · by_cases hk : kv.1 = k
        · subst hk
          simp [lookupKey, Option.orElse, ha]
        · simp [lookupKey, hk, Option.orElse, ha]
      · simp [Option.orElse]
    · have hstep : addComponentGo acc flag (kv :: rest) = addComponentGo acc true rest := by
        simp [addComponentGo, hl]
      rw [hstep, ih]
      by_cases hk : kv.1 = k
      · subst hk
        simp [hl, lookupKey, Option.orElse]
      · simp [lookupKey, hk]

theorem addComponentGo_flag (c : List (String × CompEntry)) :
    ∀ (acc : List (String × CompEntry)) (flag : Bool),
    (c.map Prod.fst).Nodup →
    ((addComponentGo acc flag c).2 = true ↔
      flag = true ∨ ∃ kv ∈ c, (lookupKey kv.1 acc).isSome = true) := by
  induction c with
  | nil => intro acc flag _; simp [addComponentGo]
  | cons kv rest ih =>
    intro acc flag hnd
    have hnd' : (kv.1 :: rest.map Prod.fst).Nodup := by simpa using hnd
    rcases List.nodup_cons.mp hnd' with ⟨hk1, hk2⟩
    rcases hl : lookupKey kv.1 acc with _ | v
    · have hstep : addComponentGo acc flag (kv :: rest) = addComponentGo (acc ++ [kv]) flag rest := by
        simp [addComponentGo, hl]
      rw [hstep, ih _ _ hk2]
      constructor
      · rintro (hf | ⟨kv', hkv', hsome⟩)
        · exact Or.inl hf
        · right
          have hmap : kv'.1 ∈ rest.map Prod.fst := List.mem_map_of_mem Prod.fst hkv'
          have hne : kv.1 ≠ kv'.1 := fun he => hk1 (he ▸ hmap)
          refine ⟨kv', List.mem_cons_of_mem _ hkv', ?_⟩
          rw [lookupKey_append] at hsome
          rcases ha : lookupKey kv'.1 acc with _ | w
          · rw [ha] at hsome
            simp [lookupKey, hne, Option.orElse] at hsome
          · simp [ha]
      · rintro (hf | ⟨kv', hkv', hsome⟩)
        · exact Or.inl hf
        · rcases List.mem_cons.mp hkv' with rfl | hmem
          · rw [hl] at hsome
            simp at hsome
          · right
            refine ⟨kv', hmem, ?_⟩
            rw [lookupKey_append]
            rcases ha : lookupKey kv'.1 acc with _ | w
            · rw [ha] at hsome
              simp at hsome
            · simp [Option.orElse]
    · have hstep : addComponentGo acc flag (kv :: rest) = addComponentGo acc true rest := by
        simp [addComponentGo, hl]
      rw [hstep, ih _ _ hk2]
      constructor
      · intro _
        exact Or.inr ⟨kv, List.mem_cons_self kv rest, by simp [hl]⟩
      · intro _
        exact Or.inl rfl

/-- C10: `addComponent` never overwrites: after the call, a key present in
the original component list still maps to its original entry, a key only
in the argument maps to the supplied entry, and the exit code is set
exactly when some argument key was already present (the duplicate is
rejected and flagged). -/
theorem addComponent_no_overwrite (s c : List (String × CompEntry)) (k : String)
    (h : (c.map Prod.fst).Nodup) :
    lookupKey k (addComponent s c).1 =
      ((lookupKey k s).orElse fun _ => lookupKey k c) ∧
    ((addComponent s c).2 = true ↔ ∃ kv ∈ c, (lookupKey kv.1 s).isSome = true) := by
  refine ⟨addComponentGo_lookup c s false k, ?_⟩
  rw [addComponent, addComponentGo_flag c s false h]
  simp

/-- Witness for C10: adding a duplicate `compA` and a fresh `compB` keeps
`compA`'s original entry and sets the exit code. -/
theorem addComponent_no_overwrite_witness :
    lookupKey "compA" (addComponent [("compA", eA)] [("compA", eB), ("compB", eB)]).1 = some eA ∧
    (addComponent [("compA", eA)] [("compA", eB), ("compB", eB)]).2 = true :=
  ⟨(addComponent_no_overwrite [("compA", eA)] [("compA", eB), ("compB", eB)] "compA"
      (by decide)).1.trans rfl,
   (addComponent_no_overwrite [("compA", eA)] [("compA", eB), ("compB", eB)] "compA"
      (by decide)).2.mpr ⟨("compA", eB), by decide, by decide⟩⟩
